import Mathlib

/-!
Shallow embedding of the ScrollySystem class (scrolltering, src/unnamed/part_002),
a scroll-trigger resolution engine built on visibility-change events.

Modelling conventions:
* A DOM element tracked by the system is an `Elem`: an identity tag together with
  the geometry and attribute values the engine actually reads from it
  (`getBoundingClientRect().top` at resolution time, and the trigger attribute value
  captured at visibility-event intake time).  Elements matching the default selector
  `[data-trigger]` necessarily carry the attribute, so the trigger value is a `String`.
* `this.visibleElements` is a JS `Map` keyed by element; it is embedded as an
  insertion-ordered association list with JS Map set/delete semantics.
* Side-effect egress (the `onChange` callback and the `scrollTrigger` CustomEvent
  dispatch) is embedded as append-only traces in the state.
* The `IntersectionObserver` collaborator is embedded by the part of its state the
  class interacts with: its set of observed targets.  `disconnect()` empties the
  target set but leaves the observer object alive, exactly as in the DOM API.
* Machine reals returned by `getBoundingClientRect` are modelled as `Int`
  coordinates; scores with half-point deductions use `ℚ`.
-/

/-- A tracked DOM element: an identity together with the values the engine reads
from it.  `top` is the viewport-relative top coordinate, `trig` the value of the
configured trigger attribute. -/
structure Elem where
  eid : Nat
  top : Int
  trig : String
deriving DecidableEq, Repr

/-- One notification payload (the `detail` object of `emitTriggerChange`):
the current and previous trigger ids. -/
structure Notif where
  current : String
  previous : Option String
deriving DecidableEq, Repr

/-- The `threshold` configuration option: a scalar or an array of scalars,
as in the JS option `number | number[]`. -/
inductive Threshold where
  | scalar (t : ℚ)
  | array (l : List ℚ)
deriving DecidableEq, Repr

/-- The merged configuration record built by the constructor.  `onChange` records
whether a callback function was configured (`typeof onChange === 'function'`). -/
structure Config where
  selector : String
  triggerAttribute : String
  threshold : Threshold
  rootMargin : String
  debounceDelay : Int
  onChange : Bool
  debug : Bool
deriving DecidableEq, Repr

/-- The slice of IntersectionObserver state the class interacts with: the set of
currently observed targets (in registration order). -/
structure Observer where
  targets : List Elem
deriving DecidableEq, Repr

/-- Issue severity, as used in the diagnostic issue objects. -/
inductive Severity where
  | error
  | warning
  | info
deriving DecidableEq, Repr

/-- A diagnostic issue: its `type` string and severity (the fields the report
status and score depend on), plus whether it carries an element reference. -/
structure Issue where
  itype : String
  severity : Severity
deriving DecidableEq, Repr

/-- Overall report status returned by `_determineStatus`. -/
inductive Status where
  | ok
  | warning
  | error
deriving DecidableEq, Repr

/-- A diagnostic report (`diagnose` result): status, issues, and the summary
fields the claims mention. -/
structure Report where
  status : Status
  issues : List Issue
  totalElements : Nat
  performanceScore : ℚ
deriving DecidableEq, Repr

/-- The mutable instance state of a `ScrollySystem` object.  `dispatched` and
`callbackCalls` are traces of the `scrollTrigger` event dispatches and `onChange`
invocations performed so far. -/
structure SysState where
  config : Config
  observer : Option Observer
  visibleElements : List (Elem × String)
  currentTriggerId : Option String
  lastValidTriggerId : Option String
  diagnosticCache : List (String × Report)
  dispatched : List Notif
  callbackCalls : List Notif
deriving DecidableEq, Repr

/-- JS `Map.prototype.set`: update in place if the key is present (keeping
insertion order), otherwise append. -/
def mapSet (m : List (Elem × String)) (k : Elem) (v : String) : List (Elem × String) :=
  if m.any (fun p => p.1 = k) then
    m.map (fun p => if p.1 = k then (k, v) else p)
  else
    m ++ [(k, v)]

/-- JS `Map.prototype.delete`: remove the entry for the key if present. -/
def mapDelete (m : List (Elem × String)) (k : Elem) : List (Elem × String) :=
  m.filter (fun p => ¬ p.1 = k)

/-- The `entries.reduce((prev, curr) => currRect.top < prevRect.top ? curr : prev)`
call of `updateCurrentTrigger`: JS `reduce` without an initial value starts from the
first entry and replaces the accumulator only on a strictly smaller top. -/
def topEntry (prev : Elem × String) : List (Elem × String) → Elem × String
  | [] => prev
  | curr :: rest => topEntry (if curr.1.top < prev.1.top then curr else prev) rest

/-- Method `emitTriggerChange(currentId, previousId)`: invoke the configured callback if
present, then dispatch the `scrollTrigger` CustomEvent; both receive the same
`detail` payload. -/
def emitTriggerChange (s : SysState) (currentId : String) (previousId : Option String) :
    SysState :=
  let detail : Notif := ⟨currentId, previousId⟩
  let s1 := if s.config.onChange then
    { s with callbackCalls := s.callbackCalls ++ [detail] } else s
  { s1 with dispatched := s1.dispatched ++ [detail] }

/-- Method `setCurrentTrigger(triggerId)`: when the id differs from `currentTriggerId`,
record the new id and fire the change notification; otherwise do nothing. -/
def setCurrentTrigger (s : SysState) (triggerId : String) : SysState :=
  if s.currentTriggerId = some triggerId then s
  else
    emitTriggerChange { s with currentTriggerId := some triggerId }
      triggerId s.currentTriggerId

/-- Method `updateCurrentTrigger()`: the resolution pass.  With a non-empty visible map,
pick the entry with the smallest viewport-relative top, record it in
`lastValidTriggerId` and pass it to `setCurrentTrigger`; with an empty map, fall
back to `lastValidTriggerId` when set, else do nothing. -/
def updateCurrentTrigger (s : SysState) : SysState :=
  match s.visibleElements with
  | [] =>
    match s.lastValidTriggerId with
    | some v => setCurrentTrigger s v
    | none => s
  | e :: rest =>
    let triggerId := (topEntry e rest).2
    setCurrentTrigger { s with lastValidTriggerId := some triggerId } triggerId

/-- Method `getCurrentTriggerId()`. -/
def getCurrentTriggerId (s : SysState) : Option String :=
  s.currentTriggerId

/-- Method `observe(element)`: when the observer exists (and the element is non-null),
register the element with the IntersectionObserver.  Observing an already-observed
target is a DOM no-op. -/
def observe (s : SysState) (e : Elem) : SysState :=
  match s.observer with
  | some o =>
    let newTargets := if e ∈ o.targets then o.targets else o.targets ++ [e]
    { s with observer := some ⟨newTargets⟩ }
  | none => s

/-- Method `unobserve(element)`: when the observer exists, unregister the element and
delete any visible-map entry for it. -/
def unobserve (s : SysState) (e : Elem) : SysState :=
  match s.observer with
  | some o =>
    { s with observer := some ⟨o.targets.filter (fun t => ¬ t = e)⟩,
             visibleElements := mapDelete s.visibleElements e }
  | none => s

/-- Method `destroy()`: clear the pending timer, `disconnect()` the observer (which
empties its target set but does not drop the `this.observer` reference), and clear
the visible map, both trigger ids and the diagnostic cache. -/
def destroy (s : SysState) : SysState :=
  { s with observer := s.observer.map (fun _ => ⟨[]⟩),
           visibleElements := [],
           currentTriggerId := none,
           lastValidTriggerId := none,
           diagnosticCache := [] }

/-- One element of the `entries` array delivered to the IntersectionObserver
callback: the target and its `isIntersecting` flag. -/
structure IOEntry where
  target : Elem
  isIntersecting : Bool
deriving DecidableEq, Repr

/-- The `entries.forEach` body of the observer callback: intersecting targets are
`set` into the visible map under their trigger-attribute value, others `delete`d. -/
def processEntries (m : List (Elem × String)) (entries : List IOEntry) :
    List (Elem × String) :=
  entries.foldl
    (fun m en =>
      if en.isIntersecting then mapSet m en.target en.target.trig
      else mapDelete m en.target)
    m

/-- The events driving the resolution pipeline: a visibility-event batch folded
into the visible map by the observer callback, or the (debounced) execution of
the resolution pass. -/
inductive Event where
  | batch (entries : List IOEntry)
  | resolve
deriving DecidableEq, Repr

/-- Process one event against the instance state. -/
def stepEvent (s : SysState) : Event → SysState
  | Event.batch es => { s with visibleElements := processEntries s.visibleElements es }
  | Event.resolve => updateCurrentTrigger s

/-- Process a list of events in order. -/
def runEvents (s : SysState) (evs : List Event) : SysState :=
  evs.foldl stepEvent s

/-- Process one event while tracking whether some resolution pass has already run
over a non-empty Visible Set. -/
def stepFlag (p : SysState × Bool) (ev : Event) : SysState × Bool :=
  match ev with
  | Event.batch es => (stepEvent p.1 (Event.batch es), p.2)
  | Event.resolve => (updateCurrentTrigger p.1, p.2 || !p.1.visibleElements.isEmpty)

/-- Run a list of events from a state, tracking the non-empty-resolution flag. -/
def runFlag (s : SysState) (evs : List Event) : SysState × Bool :=
  evs.foldl stepFlag (s, false)

/-- The constructor defaults (`this.config = { ... , ...options }`). -/
structure Options where
  selector : Option String
  triggerAttribute : Option String
  threshold : Option Threshold
  rootMargin : Option String
  debounceDelay : Option Int
  onChange : Option Bool
  debug : Option Bool
deriving DecidableEq, Repr

/-- The all-absent options record (`new ScrollySystem()`). -/
def Options.empty : Options :=
  ⟨none, none, none, none, none, none, none⟩

/-- The config merge performed by the constructor: spread `options` over the
default record.  No field is validated, clamped or rejected. -/
def mergeConfig (o : Options) : Config where
  selector := o.selector.getD "[data-trigger]"
  triggerAttribute := o.triggerAttribute.getD "data-trigger"
  threshold := o.threshold.getD (Threshold.scalar 0)
  rootMargin := o.rootMargin.getD "0px"
  debounceDelay := o.debounceDelay.getD 10
  onChange := o.onChange.getD false
  debug := o.debug.getD false

/-- The state right after `constructor` + `setup()`: merged config, a fresh
observer registered on the selector matches (`targets`), empty maps, null trigger
ids, followed by the immediate initial resolution pass. -/
def initState (o : Options) (targets : List Elem) : SysState :=
  updateCurrentTrigger
    { config := mergeConfig o,
      observer := some ⟨targets⟩,
      visibleElements := [],
      currentTriggerId := none,
      lastValidTriggerId := none,
      diagnosticCache := [],
      dispatched := [],
      callbackCalls := [] }

/-- Construction `new ScrollySystem(options)` as a fallible construction: the constructor never
throws on configuration values, so every options record yields `Except.ok`. -/
def construct (o : Options) (targets : List Elem) : Except String SysState :=
  Except.ok (initState o targets)

/-- One element as seen by the diagnostics engine: the values `validateElements`
reads from it.  `trig` is the `getAttribute` result, `none` modelling a missing
attribute.  Styles are the computed style strings. -/
structure DocElem where
  trig : Option String
  offsetHeight : Int
  display : String
  visibility : String
  position : String
deriving DecidableEq, Repr

/-- The slice of the live page the diagnostics engine queries: the
`querySelectorAll(selector)` result in document order, plus the layout and
environment facts of `_checkEnvironment`. -/
structure Document where
  elems : List DocElem
  viewportHeight : Int
  documentHeight : Int
  bodyOverflow : String
  htmlOverflow : String
  hasViewportMeta : Bool
  hasIntersectionObserver : Bool
deriving DecidableEq, Repr

/-- The per-element body of `validateElements`: the accumulator carries the
`triggerIds` set (as an ordered list) and the issues found so far.  A falsy
trigger attribute (`null` or the empty string) is a missing-id error; a repeat of
a seen id is a duplicate error.  The height check compares `offsetHeight` with
half the viewport height (`2 * h < vh` over integers). -/
def validateStep (vh : Int) (acc : List String × List Issue) (el : DocElem) :
    List String × List Issue :=
  let tid := el.trig.getD ""
  let tidFalsy := tid = ""
  let idIssues : List Issue :=
    if tidFalsy then [⟨"missing_trigger_id", Severity.error⟩]
    else if tid ∈ acc.1 then [⟨"duplicate_trigger_id", Severity.error⟩]
    else []
  let seen := if tidFalsy ∨ tid ∈ acc.1 then acc.1 else acc.1 ++ [tid]
  let heightIssues : List Issue :=
    if 2 * el.offsetHeight < vh then [⟨"insufficient_height", Severity.warning⟩] else []
  let visIssues : List Issue :=
    if el.display = "none" then [⟨"element_hidden", Severity.error⟩]
    else if el.visibility = "hidden" then
      [⟨"element_visibility_hidden", Severity.warning⟩]
    else []
  let posIssues : List Issue :=
    if el.position = "fixed" then [⟨"fixed_position", Severity.warning⟩] else []
  (seen, acc.2 ++ idIssues ++ heightIssues ++ visIssues ++ posIssues)

/-- Method `validateElements()`: with no selector matches, a single no-elements error;
otherwise the per-element checks over the matches in document order. -/
def validateElements (doc : Document) : List Issue :=
  if doc.elems.isEmpty then [⟨"no_elements", Severity.error⟩]
  else (doc.elems.foldl (validateStep doc.viewportHeight) ([], [])).2

/-- Method `checkPerformance()`: too many tracked elements; the threshold else-if chain
(an array longer than five entries, else a scalar threshold strictly equal to 1.0);
and the debounce-delay else-if chain. -/
def checkPerformance (numElements : Nat) (cfg : Config) : List Issue :=
  let elemIssues : List Issue :=
    if 50 < numElements then [⟨"too_many_elements", Severity.warning⟩] else []
  let thresholdIssues : List Issue :=
    match cfg.threshold with
    | Threshold.array l =>
      if 5 < l.length then [⟨"complex_threshold", Severity.warning⟩] else []
    | Threshold.scalar t =>
      if t = 1 then [⟨"high_threshold", Severity.warning⟩] else []
  let debounceIssues : List Issue :=
    if 100 < cfg.debounceDelay then [⟨"high_debounce", Severity.info⟩]
    else if cfg.debounceDelay < 5 then [⟨"low_debounce", Severity.info⟩]
    else []
  elemIssues ++ thresholdIssues ++ debounceIssues

/-- Method `_checkEnvironment()`: scrollability, overflow, viewport meta and
IntersectionObserver support checks. -/
def checkEnvironment (doc : Document) : List Issue :=
  (if doc.documentHeight ≤ doc.viewportHeight then
    [⟨"no_scroll", Severity.error⟩] else [])
  ++ (if doc.bodyOverflow = "hidden" ∨ doc.htmlOverflow = "hidden" then
    [⟨"overflow_hidden", Severity.error⟩] else [])
  ++ (if doc.hasViewportMeta then [] else [⟨"no_viewport_meta", Severity.warning⟩])
  ++ (if doc.hasIntersectionObserver then [] else
    [⟨"no_intersection_observer", Severity.error⟩])

/-- Method `_determineStatus(issues)`: error if some issue is an error, else warning if
some issue is a warning, else ok. -/
def determineStatus (issues : List Issue) : Status :=
  if issues.any (fun i => i.severity == Severity.error) then Status.error
  else if issues.any (fun i => i.severity == Severity.warning) then Status.warning
  else Status.ok

/-- The per-severity deduction of `_calculatePerformanceScore`. -/
def deduction : Severity → ℚ
  | Severity.error => 3
  | Severity.warning => 1
  | Severity.info => 1 / 2

/-- Method `_calculatePerformanceScore(issues)`: start from 10, deduct per issue, then
floor at 0 (`Math.max(0, score)`). -/
def calculatePerformanceScore (issues : List Issue) : ℚ :=
  max 0 (issues.foldl (fun score i => score - deduction i.severity) 10)

/-- Method `diagnose(verbose)`: serve a cached report when the `diagnose_${verbose}` key
is present; otherwise gather the element, performance and environment issues in
that order, build the report and cache it.  (The five-second cache eviction is a
real-time behaviour outside this model.) -/
def diagnose (doc : Document) (s : SysState) (verbose : Bool) : Report × SysState :=
  let cacheKey := if verbose then "diagnose_true" else "diagnose_false"
  match s.diagnosticCache.find? (fun p => p.1 == cacheKey) with
  | some p => (p.2, s)
  | none =>
    let issues := validateElements doc
      ++ checkPerformance doc.elems.length s.config
      ++ checkEnvironment doc
    let result : Report :=
      ⟨determineStatus issues, issues, doc.elems.length,
        calculatePerformanceScore issues⟩
    (result, { s with diagnosticCache := s.diagnosticCache ++ [(cacheKey, result)] })

/-- The state of the single debounce timer slot (`this._debounceTimer`) together
with a count of executed resolution passes.  `deadline` is the absolute time at
which the pending `setTimeout` callback fires. -/
structure DebounceState where
  deadline : Option Nat
  passes : Nat
deriving DecidableEq, Repr

/-- Advance the timer to time `now`: a pending callback whose deadline lies
strictly before `now` has fired by then, executing one resolution pass. -/
def fireIfDue (d : DebounceState) (now : Nat) : DebounceState :=
  match d.deadline with
  | some t => if t < now then ⟨none, d.passes + 1⟩ else d
  | none => d

/-- One invocation of the debounced function at time `t` (the observer callback
calling `this.debouncedUpdate()`): any earlier-due firing has happened, then
`clearTimeout` drops the pending timer and `setTimeout` schedules the resolution
pass for `t + wait`. -/
def debouncedCall (wait : Nat) (d : DebounceState) (t : Nat) : DebounceState :=
  let d1 := fireIfDue d t
  ⟨some (t + wait), d1.passes⟩

/-- Let the final pending timer (if any) fire. -/
def flushTimer (d : DebounceState) : DebounceState :=
  match d.deadline with
  | some _ => ⟨none, d.passes + 1⟩
  | none => d

/-- The number of resolution passes executed when visibility-event batches invoke
the debounced update at the given (chronological) times, once all timers have
fired. -/
def resolutionPasses (wait : Nat) (times : List Nat) : Nat :=
  (flushTimer (times.foldl (debouncedCall wait) ⟨none, 0⟩)).passes

/-! Concrete fixtures used in counterexamples and witnesses. -/

/-- A tracked element with trigger id "intro" at top coordinate 100. -/
def eA : Elem := ⟨0, 100, "intro"⟩

/-- A tracked element with trigger id "section1" at top coordinate 40. -/
def eB : Elem := ⟨1, 40, "section1"⟩

/-- A tracked element with trigger id "section2", tied with `eB` at top 40. -/
def eC : Elem := ⟨2, 40, "section2"⟩

/-- A freshly constructed instance with default options and no selector matches. -/
def state0 : SysState := initState Options.empty []

/-- A reachable state in which `eA` is currently visible and already resolved. -/
def stateIntro : SysState :=
  runEvents state0 [Event.batch [⟨eA, true⟩], Event.resolve]

/-- Default options with a negative debounce delay. -/
def optsNeg : Options := { Options.empty with debounceDelay := some (-5) }

/-! Theorems for the claims. -/

/-- C3: the notifier dispatches the `scrollTrigger` broadcast (and, when an
`onChange` callback is configured, invokes it) exactly when the resolved id
differs from the currently emitted `currentTriggerId`; resolving to the same id
twice in a row adds exactly one notification, and the repeat call adds none. -/
theorem C3_notify_exactly_on_change (s : SysState) (id : String) :
    ((setCurrentTrigger s id).dispatched =
      s.dispatched ++
        (if s.currentTriggerId = some id then [] else [⟨id, s.currentTriggerId⟩]))
    ∧ ((setCurrentTrigger s id).callbackCalls =
      s.callbackCalls ++
        (if s.currentTriggerId = some id ∨ s.config.onChange = false then []
          else [⟨id, s.currentTriggerId⟩]))
    ∧ (setCurrentTrigger (setCurrentTrigger s id) id).dispatched
        = (setCurrentTrigger s id).dispatched
    ∧ (setCurrentTrigger (setCurrentTrigger s id) id).callbackCalls
        = (setCurrentTrigger s id).callbackCalls := by
  by_cases h : s.currentTriggerId = some id
  · simp [setCurrentTrigger, h]
  · by_cases hc : s.config.onChange
    all_goals simp [setCurrentTrigger, emitTriggerChange, h, hc]

/-- C5 counterexample: on a destroyed instance, `observe(eA)` is not a no-op on
the observation registrations — `destroy()` never clears the `this.observer`
reference, so the element is re-registered with the (disconnected) observer. -/
theorem C5_counterexample :
    (observe (destroy (initState Options.empty [])) eA).observer ≠
      (destroy (initState Options.empty [])).observer := by
  decide

/-- C5 (amended): after `destroy()`, `unobserve(e)` is a no-op and `observe(e)`
raises no failure and leaves the Visible Set and the Resolution State unchanged;
but `observe(e)` does change the observation registrations, re-registering `e`
with the retained observer whenever the instance ever had one. -/
theorem C5_destroyed_ops (s : SysState) (e : Elem) :
    unobserve (destroy s) e = destroy s
    ∧ (observe (destroy s) e).visibleElements = (destroy s).visibleElements
    ∧ (observe (destroy s) e).currentTriggerId = (destroy s).currentTriggerId
    ∧ (observe (destroy s) e).lastValidTriggerId = (destroy s).lastValidTriggerId
    ∧ (observe (destroy s) e).observer = s.observer.map (fun _ => ⟨[e]⟩) := by
  cases h : s.observer <;>
    simp [unobserve, observe, destroy, mapDelete, h]

/-- C6 counterexample: constructing with `debounceDelay = -5` does not fail fast;
the constructor succeeds and stores the negative value verbatim. -/
theorem C6_counterexample :
    (construct optsNeg []).isOk = true
    ∧ ((construct optsNeg []).toOption.map (fun s => s.config.debounceDelay))
        = some (-5) := by
  constructor <;> rfl

/-- C6 (amended): construction never validates the configuration — for every
options record it succeeds, and the merged config stores the supplied
`debounceDelay` (negative values included) without clamping or rejection. -/
theorem C6_no_validation (o : Options) (targets : List Elem) :
    (construct o targets).isOk = true
    ∧ ((construct o targets).toOption.map (fun s => s.config.debounceDelay))
        = some (o.debounceDelay.getD 10) := by
  refine ⟨rfl, ?_⟩
  simp [construct, initState, updateCurrentTrigger, mergeConfig, Except.toOption]

/-- C10: `destroy()` resets `getCurrentTriggerId()` to null, empties the Visible
Set, nulls `lastValidTriggerId` and empties the diagnostic cache, whatever the
prior state; and it is the one operation that does so — visibility-event intake,
`observe`, `unobserve` leave the current id untouched, and a resolution pass
never turns a non-null current id back into null. -/
theorem C10_destroy_resets :
    (∀ s : SysState, getCurrentTriggerId (destroy s) = none
      ∧ (destroy s).visibleElements = []
      ∧ (destroy s).lastValidTriggerId = none
      ∧ (destroy s).diagnosticCache = [])
    ∧ (∀ (s : SysState) (e : Elem),
        getCurrentTriggerId (observe s e) = getCurrentTriggerId s)
    ∧ (∀ (s : SysState) (e : Elem),
        getCurrentTriggerId (unobserve s e) = getCurrentTriggerId s)
    ∧ (∀ (s : SysState) (es : List IOEntry),
        getCurrentTriggerId (stepEvent s (Event.batch es)) = getCurrentTriggerId s)
    ∧ (∀ s : SysState, getCurrentTriggerId s ≠ none →
        getCurrentTriggerId (updateCurrentTrigger s) ≠ none) := by
  refine ⟨fun s => ⟨rfl, rfl, rfl, rfl⟩, fun s e => ?_, fun s e => ?_, fun s es => rfl,
    fun s h => ?_⟩
  · cases ho : s.observer <;> simp [observe, getCurrentTriggerId, ho]
  · cases ho : s.observer <;> simp [unobserve, getCurrentTriggerId, ho]
  · cases hv : s.visibleElements with
    | nil =>
      cases hl : s.lastValidTriggerId with
      | none => simpa [updateCurrentTrigger, hv, hl] using h
      | some v =>
        by_cases hc : s.currentTriggerId = some v <;>
          by_cases hoc : s.config.onChange <;>
            simp [updateCurrentTrigger, hv, hl, setCurrentTrigger, emitTriggerChange,
              getCurrentTriggerId, hc, hoc]
    | cons e rest =>
      by_cases hc : s.currentTriggerId = some (topEntry e rest).2 <;>
        by_cases hoc : s.config.onChange <;>
          simp [updateCurrentTrigger, hv, setCurrentTrigger, emitTriggerChange,
            getCurrentTriggerId, hc, hoc]

/-- C10 witness: the preservation clause applied at a concrete resolved state. -/
theorem C10_witness :
    getCurrentTriggerId (updateCurrentTrigger stateIntro) ≠ none :=
  C10_destroy_resets.2.2.2.2 stateIntro (by decide)

/-- The JS `reduce` of `updateCurrentTrigger` returns the first-encountered entry
attaining the minimal top coordinate: the list splits as `l1 ++ winner :: l2`
where every entry of `l1` has a strictly larger top, and the winner's top is a
lower bound for the whole list. -/
theorem topEntry_first_min (prev : Elem × String) (l : List (Elem × String)) :
    ∃ l1 l2, prev :: l = l1 ++ topEntry prev l :: l2
      ∧ (∀ p ∈ l1, (topEntry prev l).1.top < p.1.top)
      ∧ (∀ p ∈ prev :: l, (topEntry prev l).1.top ≤ p.1.top) := by
  induction l generalizing prev with
  | nil =>
    exact ⟨[], [], rfl, by simp, by simp [topEntry]⟩
  | cons curr rest ih =>
    simp only [topEntry]
    by_cases hlt : curr.1.top < prev.1.top
    · simp only [if_pos hlt]
      obtain ⟨l1, l2, hdec, hstrict, hmin⟩ := ih curr
      refine ⟨prev :: l1, l2, ?_, ?_, ?_⟩
      · simpa using congrArg (List.cons prev) hdec
      · intro p hp
        rcases List.mem_cons.mp hp with hp | hp
        · subst hp
          exact lt_of_le_of_lt (hmin curr (List.mem_cons_self curr rest)) hlt
        · exact hstrict p hp
      · intro p hp
        rcases List.mem_cons.mp hp with hp | hp
        · subst hp
          exact le_of_lt (lt_of_le_of_lt (hmin curr (List.mem_cons_self curr rest)) hlt)
        · exact hmin p hp
    · simp only [if_neg hlt]
      have hle : prev.1.top ≤ curr.1.top := le_of_not_lt hlt
      obtain ⟨l1, l2, hdec, hstrict, hmin⟩ := ih prev
      cases l1 with
      | nil =>
        simp only [List.nil_append] at hdec
        injection hdec with hw hl2
        refine ⟨[], curr :: rest, ?_, by simp, ?_⟩
        · simp [← hw]
        · intro p hp
          rw [← hw] at hmin ⊢
          rcases List.mem_cons.mp hp with hp | hp
          · subst hp; exact le_refl _
          rcases List.mem_cons.mp hp with hp | hp
          · subst hp; exact hle
          · exact hmin p (List.mem_cons_of_mem prev hp)
      | cons a l1x =>
        simp only [List.cons_append] at hdec
        injection hdec with ha hrest
        have hwa : (topEntry prev rest).1.top < prev.1.top := by
          have := hstrict a (List.mem_cons_self a l1x)
          rwa [← ha] at this
        refine ⟨prev :: curr :: l1x, l2, ?_, ?_, ?_⟩
        · conv_lhs => rw [hrest]
          simp
        · intro p hp
          rcases List.mem_cons.mp hp with hp | hp
          · subst hp; exact hwa
          rcases List.mem_cons.mp hp with hp | hp
          · subst hp; exact lt_of_lt_of_le hwa hle
          · exact hstrict p (List.mem_cons_of_mem a hp)
        · intro p hp
          rcases List.mem_cons.mp hp with hp | hp
          · subst hp; exact hmin _ (List.mem_cons_self _ _)
          rcases List.mem_cons.mp hp with hp | hp
          · subst hp; exact le_of_lt (lt_of_lt_of_le hwa hle)
          · exact hmin p (List.mem_cons_of_mem prev hp)

/-- C1: for a non-empty Visible Set the resolution pass selects the entry whose
element's viewport-relative top is numerically smallest, with the
first-encountered entry winning ties (the visible list splits as
`l1 ++ winner :: l2` with every entry of `l1` strictly lower than the winner is,
i.e. of strictly larger top); `lastValidTriggerId` is set to that entry's id and
it becomes the resolved (current) identifier. -/
theorem C1_resolution_picks_first_min (s : SysState) (e : Elem × String)
    (rest : List (Elem × String)) (h : s.visibleElements = e :: rest) :
    (∃ l1 l2, s.visibleElements = l1 ++ topEntry e rest :: l2
      ∧ (∀ p ∈ l1, (topEntry e rest).1.top < p.1.top)
      ∧ (∀ p ∈ s.visibleElements, (topEntry e rest).1.top ≤ p.1.top))
    ∧ (updateCurrentTrigger s).lastValidTriggerId = some (topEntry e rest).2
    ∧ (updateCurrentTrigger s).currentTriggerId = some (topEntry e rest).2 := by
  obtain ⟨l1, l2, hdec, hstrict, hmin⟩ := topEntry_first_min e rest
  refine ⟨⟨l1, l2, by rw [h]; exact hdec, hstrict, by rw [h]; exact hmin⟩, ?_, ?_⟩
  all_goals
    by_cases hc : s.currentTriggerId = some (topEntry e rest).2 <;>
      by_cases hoc : s.config.onChange <;>
        simp [updateCurrentTrigger, h, setCurrentTrigger, emitTriggerChange, hc, hoc]

/-- A reachable state whose Visible Set holds two entries with equal top
coordinates (`eB` first, then `eC`). -/
def stateTie : SysState :=
  runEvents (initState Options.empty [eB, eC])
    [Event.batch [⟨eB, true⟩, ⟨eC, true⟩]]

/-- C1 witness: at a two-entry Visible Set tied at top 40, the first-encountered
entry `eB` wins and its id "section1" is resolved. -/
theorem C1_witness :
    stateTie.visibleElements = ((eB, "section1") : Elem × String) :: [(eC, "section2")]
    ∧ (updateCurrentTrigger stateTie).currentTriggerId = some "section1" := by
  refine ⟨by decide, ?_⟩
  have hmain := C1_resolution_picks_first_min stateTie (eB, "section1")
    [(eC, "section2")] (by decide)
  exact hmain.2.2

/-- One step of `stepFlag` preserves the coupling invariant: the current id always
equals the last valid id, and the current id is non-null exactly when some
resolution pass has already run over a non-empty Visible Set. -/
theorem stepFlag_preserves (p : SysState × Bool) (ev : Event)
    (hcl : p.1.currentTriggerId = p.1.lastValidTriggerId)
    (hb : p.1.currentTriggerId.isSome = p.2) :
    (stepFlag p ev).1.currentTriggerId = (stepFlag p ev).1.lastValidTriggerId
    ∧ (stepFlag p ev).1.currentTriggerId.isSome = (stepFlag p ev).2 := by
  obtain ⟨s, b⟩ := p
  cases ev with
  | batch es => exact ⟨hcl, hb⟩
  | resolve =>
    simp only [stepFlag] at hcl hb ⊢
    cases hv : s.visibleElements with
    | nil =>
      cases hl : s.lastValidTriggerId with
      | none =>
        have hc : s.currentTriggerId = none := by rw [hcl, hl]
        refine ⟨?_, ?_⟩ <;>
          simp [updateCurrentTrigger, hv, hl, hc, ← hb]
      | some v =>
        have hc : s.currentTriggerId = some v := by rw [hcl, hl]
        refine ⟨?_, ?_⟩ <;>
          simp [updateCurrentTrigger, hv, hl, setCurrentTrigger, hc, ← hb]
    | cons e rest =>
      by_cases hc : s.currentTriggerId = some (topEntry e rest).2 <;>
        by_cases hoc : s.config.onChange <;>
          simp [updateCurrentTrigger, hv, setCurrentTrigger, emitTriggerChange,
            hc, hoc, hv]

/-- Folding `stepFlag` over any event list preserves the coupling invariant. -/
theorem stepFlag_fold_invariant (evs : List Event) (p : SysState × Bool)
    (hcl : p.1.currentTriggerId = p.1.lastValidTriggerId)
    (hb : p.1.currentTriggerId.isSome = p.2) :
    (evs.foldl stepFlag p).1.currentTriggerId
        = (evs.foldl stepFlag p).1.lastValidTriggerId
    ∧ (evs.foldl stepFlag p).1.currentTriggerId.isSome = (evs.foldl stepFlag p).2 := by
  induction evs generalizing p with
  | nil => exact ⟨hcl, hb⟩
  | cons ev evs ih =>
    have hstep := stepFlag_preserves p ev hcl hb
    exact ih (stepFlag p ev) hstep.1 hstep.2

/-- C2: starting from a freshly constructed instance, over any sequence of
visibility-event batches and resolution passes (no `destroy()`),
`getCurrentTriggerId()` is null exactly until some resolution pass has run over a
non-empty Visible Set and non-null from then on; moreover a resolution pass over
an empty Visible Set re-emits `lastValidTriggerId` through `setCurrentTrigger`
when it is set, and does nothing at all when it is null. -/
theorem C2_sticky_fallback :
    (∀ (o : Options) (targets : List Elem) (evs : List Event),
      getCurrentTriggerId (runFlag (initState o targets) evs).1 ≠ none
        ↔ (runFlag (initState o targets) evs).2 = true)
    ∧ (∀ s : SysState, s.visibleElements = [] → s.lastValidTriggerId = none →
        updateCurrentTrigger s = s)
    ∧ (∀ (s : SysState) (v : String), s.visibleElements = [] →
        s.lastValidTriggerId = some v →
        updateCurrentTrigger s = setCurrentTrigger s v) := by
  refine ⟨fun o targets evs => ?_, fun s h1 h2 => ?_, fun s v h1 h2 => ?_⟩
  · have hinv := stepFlag_fold_invariant evs (initState o targets, false) rfl rfl
    rw [runFlag]
    rw [getCurrentTriggerId, ← hinv.2, Option.isSome_iff_ne_none]
  · simp [updateCurrentTrigger, h1, h2]
  · simp [updateCurrentTrigger, h1, h2]

/-- C2 witness: the empty-set clauses applied at the fresh default state, and the
main equivalence applied to a concrete run that makes `eA` visible and resolves. -/
theorem C2_witness :
    updateCurrentTrigger state0 = state0
    ∧ (getCurrentTriggerId
          (runFlag (initState Options.empty [eA])
            [Event.batch [⟨eA, true⟩], Event.resolve]).1 ≠ none
        ↔ (runFlag (initState Options.empty [eA])
            [Event.batch [⟨eA, true⟩], Event.resolve]).2 = true) :=
  ⟨C2_sticky_fallback.2.1 state0 rfl rfl,
    C2_sticky_fallback.1 Options.empty [eA] [Event.batch [⟨eA, true⟩], Event.resolve]⟩

/-- A pending timer is always present and no pass fires while the debounced
function keeps being invoked within the wait window of the previous invocation. -/
theorem debounce_coalesce (wait : Nat) (times : List Nat) (t p : Nat)
    (h : List.Chain' (fun a b => a < b ∧ b ≤ a + wait) (t :: times)) :
    (times.foldl (debouncedCall wait) ⟨some (t + wait), p⟩).passes = p
    ∧ (times.foldl (debouncedCall wait) ⟨some (t + wait), p⟩).deadline
        = some ((t :: times).getLast (List.cons_ne_nil t times) + wait) := by
  induction times generalizing t p with
  | nil => exact ⟨rfl, rfl⟩
  | cons t2 rest ih =>
    rw [List.chain'_cons] at h
    have hfold : debouncedCall wait ⟨some (t + wait), p⟩ t2 = ⟨some (t2 + wait), p⟩ := by
      simp [debouncedCall, fireIfDue, Nat.not_lt.mpr h.1.2]
    rw [List.foldl_cons, hfold, List.getLast_cons (List.cons_ne_nil t2 rest)]
    exact ih t2 p h.2

/-- When every invocation arrives strictly later than the previous deadline, each
invocation after the first fires the pending pass before rescheduling. -/
theorem debounce_spaced (wait : Nat) (times : List Nat) (t p : Nat)
    (h : List.Chain' (fun a b => a + wait < b) (t :: times)) :
    (times.foldl (debouncedCall wait) ⟨some (t + wait), p⟩).passes = p + times.length
    ∧ (times.foldl (debouncedCall wait) ⟨some (t + wait), p⟩).deadline.isSome = true := by
  induction times generalizing t p with
  | nil => exact ⟨rfl, rfl⟩
  | cons t2 rest ih =>
    rw [List.chain'_cons] at h
    have hfold : debouncedCall wait ⟨some (t + wait), p⟩ t2 = ⟨some (t2 + wait), p + 1⟩ := by
      simp [debouncedCall, fireIfDue, h.1]
    rw [List.foldl_cons, hfold]
    have hrec := ih t2 (p + 1) h.2
    refine ⟨?_, hrec.2⟩
    rw [hrec.1, List.length_cons]
    omega

/-- Flushing a state with a pending timer executes exactly one more pass. -/
theorem flushTimer_passes (d : DebounceState) (h : d.deadline.isSome = true) :
    (flushTimer d).passes = d.passes + 1 := by
  obtain ⟨dl, p⟩ := d
  cases dl with
  | none => simp at h
  | some t => rfl

/-- C4: N debounced-update invocations each within `wait` of the previous one
execute exactly one resolution pass — the one left pending `wait` ms after the
last invocation — while N invocations spaced more than `wait` apart execute
exactly N passes. -/
theorem C4_debounce_coalescing (wait : Nat) (times : List Nat) (hne : times ≠ []) :
    (List.Chain' (fun a b => a < b ∧ b ≤ a + wait) times →
      resolutionPasses wait times = 1
      ∧ (times.foldl (debouncedCall wait) ⟨none, 0⟩).deadline
          = some (times.getLast hne + wait))
    ∧ (List.Chain' (fun a b => a + wait < b) times →
      resolutionPasses wait times = times.length) := by
  cases times with
  | nil => exact absurd rfl hne
  | cons t rest =>
    have hstart : debouncedCall wait ⟨none, 0⟩ t = ⟨some (t + wait), 0⟩ := rfl
    constructor
    · intro hchain
      obtain ⟨h1, h2⟩ := debounce_coalesce wait rest t 0 hchain
      have h2s : (rest.foldl (debouncedCall wait) ⟨some (t + wait), 0⟩).deadline.isSome
          = true := by rw [h2]; rfl
      refine ⟨?_, ?_⟩
      · rw [resolutionPasses, List.foldl_cons, hstart, flushTimer_passes _ h2s, h1]
      · rw [List.foldl_cons, hstart]
        exact h2
    · intro hchain
      obtain ⟨h1, h2⟩ := debounce_spaced wait rest t 0 hchain
      rw [resolutionPasses, List.foldl_cons, hstart, flushTimer_passes _ h2, h1,
        List.length_cons]
      omega

/-- C4 witness: with the default 10 ms delay, three batches at 0, 5, 8 ms produce
one pass, pending until 8 + 10 = 18 ms; three at 0, 20, 40 ms produce three. -/
theorem C4_witness :
    (resolutionPasses 10 [0, 5, 8] = 1
      ∧ ([0, 5, 8].foldl (debouncedCall 10) ⟨none, 0⟩).deadline = some 18)
    ∧ resolutionPasses 10 [0, 20, 40] = 3 :=
  ⟨(C4_debounce_coalescing 10 [0, 5, 8] (by decide)).1
      (by norm_num [List.chain'_cons]),
    (C4_debounce_coalescing 10 [0, 20, 40] (by decide)).2
      (by norm_num [List.chain'_cons])⟩

/-- The number of issues of a given severity in an issue list. -/
def countSev (sev : Severity) (issues : List Issue) : Nat :=
  (issues.filter (fun i => i.severity == sev)).length

/-- The score fold of `_calculatePerformanceScore` subtracts the total deduction
from its starting value. -/
theorem score_foldl (issues : List Issue) (a : ℚ) :
    issues.foldl (fun score i => score - deduction i.severity) a
      = a - (issues.map (fun i => deduction i.severity)).sum := by
  induction issues generalizing a with
  | nil => simp
  | cons i l ih =>
    rw [List.foldl_cons, ih, List.map_cons, List.sum_cons]
    ring

/-- The total deduction is 3 per error, 1 per warning and 1/2 per info issue. -/
theorem deduction_sum (issues : List Issue) :
    (issues.map (fun i => deduction i.severity)).sum
      = 3 * (countSev Severity.error issues : ℚ)
        + (countSev Severity.warning issues : ℚ)
        + (countSev Severity.info issues : ℚ) / 2 := by
  induction issues with
  | nil => simp [countSev]
  | cons i l ih =>
    rcases i with ⟨ty, sev⟩
    cases sev <;>
      simp only [List.map_cons, List.sum_cons, ih, countSev, List.filter_cons] <;>
        simp [deduction, Severity] <;> ring

/-- C7: the derived report status is error when some issue is an error, else
warning when some issue is a warning, else ok; and the performance score is
10 minus 3 per error, 1 per warning and 1/2 per info issue, floored at 0, hence
always within [0, 10]. -/
theorem C7_status_and_score (issues : List Issue) :
    (determineStatus issues = Status.error ↔ ∃ i ∈ issues, i.severity = Severity.error)
    ∧ (determineStatus issues = Status.warning ↔
        ((∃ i ∈ issues, i.severity = Severity.warning)
          ∧ ¬ ∃ i ∈ issues, i.severity = Severity.error))
    ∧ (determineStatus issues = Status.ok ↔
        ((¬ ∃ i ∈ issues, i.severity = Severity.error)
          ∧ ¬ ∃ i ∈ issues, i.severity = Severity.warning))
    ∧ calculatePerformanceScore issues
        = max 0 (10 - (3 * (countSev Severity.error issues : ℚ)
            + (countSev Severity.warning issues : ℚ)
            + (countSev Severity.info issues : ℚ) / 2))
    ∧ 0 ≤ calculatePerformanceScore issues
    ∧ calculatePerformanceScore issues ≤ 10 := by
  have hscore : calculatePerformanceScore issues
      = max 0 (10 - (3 * (countSev Severity.error issues : ℚ)
          + (countSev Severity.warning issues : ℚ)
          + (countSev Severity.info issues : ℚ) / 2)) := by
    rw [calculatePerformanceScore, score_foldl, deduction_sum]
  have hded : (0 : ℚ) ≤ 3 * (countSev Severity.error issues : ℚ)
      + (countSev Severity.warning issues : ℚ)
      + (countSev Severity.info issues : ℚ) / 2 := by positivity
  refine ⟨?_, ?_, ?_, hscore, le_max_left 0 _, ?_⟩
  · by_cases he : ∃ i ∈ issues, i.severity = Severity.error <;>
      by_cases hw : ∃ i ∈ issues, i.severity = Severity.warning <;>
        simp [determineStatus, List.any_eq_true, beq_iff_eq, he, hw]
  · by_cases he : ∃ i ∈ issues, i.severity = Severity.error <;>
      by_cases hw : ∃ i ∈ issues, i.severity = Severity.warning <;>
        simp [determineStatus, List.any_eq_true, beq_iff_eq, he, hw]
  · by_cases he : ∃ i ∈ issues, i.severity = Severity.error <;>
      by_cases hw : ∃ i ∈ issues, i.severity = Severity.warning <;>
        simp [determineStatus, List.any_eq_true, beq_iff_eq, he, hw]
  · rw [hscore]
    apply max_le (by norm_num)
    linarith

/-- A default configuration whose threshold array repeats one value six times. -/
def cfgRepeat : Config :=
  { mergeConfig Options.empty with
      threshold := Threshold.array [1/2, 1/2, 1/2, 1/2, 1/2, 1/2] }

/-- C8 counterexample: a threshold array of six equal values has one distinct
value (at most 5), yet `checkPerformance` emits the complex-threshold warning —
the code tests the array length, not the number of distinct values. -/
theorem C8_counterexample :
    ([(1 : ℚ) / 2, 1 / 2, 1 / 2, 1 / 2, 1 / 2, 1 / 2].dedup.length = 1)
    ∧ (∃ i ∈ checkPerformance 3 cfgRepeat,
        i.itype = "complex_threshold" ∧ i.severity = Severity.warning) := by
  constructor
  · simp [List.dedup_cons_of_mem, List.dedup_cons_of_not_mem]
  · exact ⟨⟨"complex_threshold", Severity.warning⟩, by decide, rfl, rfl⟩

/-- C8 (amended): `checkPerformance` emits exactly one complex-threshold warning
when the threshold is an array with more than 5 entries (length, not distinct
values), and exactly one high-threshold warning when the threshold is the scalar
1.0; neither warning is ever duplicated. -/
theorem C8_threshold_warnings (n : Nat) (cfg : Config) :
    ((∃ i ∈ checkPerformance n cfg,
        i.itype = "complex_threshold" ∧ i.severity = Severity.warning)
      ↔ ∃ l, cfg.threshold = Threshold.array l ∧ 5 < l.length)
    ∧ ((∃ i ∈ checkPerformance n cfg,
        i.itype = "high_threshold" ∧ i.severity = Severity.warning)
      ↔ cfg.threshold = Threshold.scalar 1)
    ∧ ((checkPerformance n cfg).filter
        (fun i => i.itype == "complex_threshold")).length ≤ 1
    ∧ ((checkPerformance n cfg).filter
        (fun i => i.itype == "high_threshold")).length ≤ 1 := by
  rcases hth : cfg.threshold with t | l <;>
    simp only [checkPerformance, hth] <;>
      split_ifs <;>
        simp_all

/-- The report half of `diagnose` depends only on the live document, the
configuration and the diagnostic cache. -/
theorem diagnose_report_congr (doc : Document) (s1 s2 : SysState) (verbose : Bool)
    (hcfg : s1.config = s2.config) (hcache : s1.diagnosticCache = s2.diagnosticCache) :
    (diagnose doc s1 verbose).1 = (diagnose doc s2 verbose).1 := by
  rcases hfind : List.find?
      (fun p => p.1 == if verbose = true then "diagnose_true" else "diagnose_false")
      s2.diagnosticCache with _ | p <;>
    simp [diagnose, hcfg, hcache, hfind]

/-- The instance state with `eA` visible and trigger ids null: one visibility
batch delivered, no resolution pass yet. -/
def stateVisibleA : SysState :=
  runEvents (initState Options.empty [eA]) [Event.batch [⟨eA, true⟩]]

/-- C9 counterexample: when the element is already in the Visible Set,
`observe(e)` immediately followed by `unobserve(e)` removes its entry, so the
Visible Set is not restored to its pre-`observe` value. -/
theorem C9_counterexample :
    (unobserve (observe stateVisibleA eA) eA).visibleElements
      ≠ stateVisibleA.visibleElements := by
  decide

/-- C9 (amended): when `e` has no entry in the Visible Set, `observe(e)`
immediately followed by `unobserve(e)` leaves the Visible Set unchanged, leaves
the configuration unchanged, and leaves the `diagnose` performance score
unchanged (the pair touches neither the document, the configuration, nor the
diagnostic cache). -/
theorem C9_roundtrip_outside_visible (s : SysState) (e : Elem) (doc : Document)
    (verbose : Bool) (h : ∀ p ∈ s.visibleElements, p.1 ≠ e) :
    (unobserve (observe s e) e).visibleElements = s.visibleElements
    ∧ (unobserve (observe s e) e).config = s.config
    ∧ (diagnose doc (unobserve (observe s e) e) verbose).1.performanceScore
        = (diagnose doc s verbose).1.performanceScore := by
  have hdel : mapDelete s.visibleElements e = s.visibleElements := by
    rw [mapDelete, List.filter_eq_self]
    intro p hp
    simpa using h p hp
  have hs : (unobserve (observe s e) e).visibleElements = s.visibleElements
      ∧ (unobserve (observe s e) e).config = s.config
      ∧ (unobserve (observe s e) e).diagnosticCache = s.diagnosticCache := by
    cases ho : s.observer <;> simp [observe, unobserve, ho, hdel]
  exact ⟨hs.1, hs.2.1,
    congrArg Report.performanceScore
      (diagnose_report_congr doc _ s verbose hs.2.1 hs.2.2)⟩

/-- A concrete live page for the C9 witness. -/
def doc0 : Document := ⟨[], 800, 2000, "visible", "visible", true, true⟩

/-- C9 witness: the amended round-trip applied at a state where `eA` is visible
and the round-tripped element is `eB`, which is not in the Visible Set. -/
theorem C9_witness :
    (unobserve (observe stateIntro eB) eB).visibleElements = stateIntro.visibleElements
    ∧ (unobserve (observe stateIntro eB) eB).config = stateIntro.config
    ∧ (diagnose doc0 (unobserve (observe stateIntro eB) eB) false).1.performanceScore
        = (diagnose doc0 stateIntro false).1.performanceScore :=
  C9_roundtrip_outside_visible stateIntro eB doc0 false (by decide)
